import Mathlib

/-!
# Verification of the barizi AI-training-data pipeline

A shallow embedding of the pipeline code in `tour/services/gpt_processor.py`,
`tour/services/scraper.py`, `tour/models.py` and `tour/views.py`, together
with theorems settling the specification claims about it.

Python/JSON values are modelled by the inductive type `Json`; Python ints are
`Int`, Python floats are exact rationals (binary floating-point rounding is
not modelled; no claim depends on it).  External effects (the HTTP fetch, the
HTML parse, the GPT call) are modelled as explicit outcome parameters, and
database rows as Lean structures with the field defaults of `models.py`.
-/

namespace Barizi

/-- A Python float: finite values as exact rationals (binary rounding not
modelled), plus the non-finite values that `json.loads` produces for its
accepted constants `Infinity`, `-Infinity` and `NaN`. -/
inductive PyFloat where
  | finite (q : ℚ)
  | inf
  | neginf
  | nan

/-- Python truthiness of a float: `0.0` is falsy; the non-finite values
(including `nan`) are truthy. -/
def PyFloat.isTruthy : PyFloat → Bool
  | .finite q => q != 0
  | _ => true

/-- Rational value of a float, for the price-tier comparisons.  The
non-finite values compare as IEEE floats in Python and are mapped to `0`
here; no payload in this development carries a non-finite price. -/
def PyFloat.toRat : PyFloat → ℚ
  | .finite q => q
  | _ => 0

/-- Python `str()` of a float: the non-finite values render as in Python;
finite values render as exact rationals (the shortest-round-trip decimal
repr of Python is not modelled; no claim prints a finite float). -/
def PyFloat.render : PyFloat → String
  | .finite q => toString q
  | .inf => "inf"
  | .neginf => "-inf"
  | .nan => "nan"

/-- A Python/JSON value: `None`, `bool`, `int`, `float`, `str`, `list`,
`dict` (as an ordered association list, unique keys as in a Python dict). -/
inductive Json where
  | null
  | bool (b : Bool)
  | num (n : Int)
  | fnum (f : PyFloat)
  | str (s : String)
  | arr (elems : List Json)
  | obj (fields : List (String × Json))

/-- Python truthiness of a value (`bool(x)`). -/
def Json.isTruthy : Json → Bool
  | .null => false
  | .bool b => b
  | .num n => n != 0
  | .fnum f => f.isTruthy
  | .str s => s != ""
  | .arr xs => !xs.isEmpty
  | .obj fs => !fs.isEmpty

/-- Lookup of a key in the field list of an object (first match; keys are
unique in a Python dict). -/
def Json.lookupKey (k : String) : List (String × Json) → Option Json
  | [] => none
  | (k0, v) :: rest => if k0 = k then some v else Json.lookupKey k rest

/-- Python `d.get(k, default)`.  Every call site in the embedded code applies
it to a value that is a dict for schema-conformant data; on a non-dict the
default is returned here, where Python would raise `AttributeError`. -/
def Json.getD (j : Json) (k : String) (d : Json) : Json :=
  match j with
  | .obj fs => (Json.lookupKey k fs).getD d
  | _ => d

/-- Python `k in d` membership test for dicts. -/
def Json.hasKey (j : Json) (k : String) : Bool :=
  match j with
  | .obj fs => (Json.lookupKey k fs).isSome
  | _ => false

/-- Elements of a list value.  Python iteration over a non-list either
iterates characters (strings) or raises; at the guarded call sites below a
non-list contributes no dict elements, which `[]` reproduces. -/
def Json.asArr : Json → List Json
  | .arr xs => xs
  | _ => []

/-- Python `d.items()` for a dict (insertion order). -/
def Json.items : Json → List (String × Json)
  | .obj fs => fs
  | _ => []

/-- Is the value a dict (`isinstance(x, dict)`)? -/
def Json.isObj : Json → Bool
  | .obj _ => true
  | _ => false

/-- Keys of a dict in order. -/
def Json.keys : Json → List String
  | .obj fs => fs.map Prod.fst
  | _ => []

/-- Lookup of a key in a dict value. -/
def Json.lookup (j : Json) (k : String) : Option Json :=
  match j with
  | .obj fs => Json.lookupKey k fs
  | _ => none

/-- Numeric value of a Python number, for the comparisons in the price-tier
table.  Python bools are ints (`True < 2000` holds); a truthy non-number
there would raise `TypeError` in Python and is mapped to `0` here (no
schema-conformant payload reaches that case). -/
def Json.asRat : Json → ℚ
  | .num n => (n : ℚ)
  | .fnum f => f.toRat
  | .bool b => if b then 1 else 0
  | _ => 0

mutual
/-- Python `str(x)` as used in f-strings.  `None`/`True`/`False`/ints render
as in Python; the container cases are simplified (Python would use `repr` of
the elements, quoting strings) and floats render via `PyFloat.render` -- no
claim in this development prints a container or a finite float. -/
def pyStr : Json → String
  | .null => "None"
  | .bool true => "True"
  | .bool false => "False"
  | .num n => toString n
  | .fnum f => f.render
  | .str s => s
  | .arr xs => "[" ++ String.intercalate ", " (pyStrList xs) ++ "]"
  | .obj fs => "\x7b" ++ String.intercalate ", " (pyStrFields fs) ++ "\x7d"

/-- Applies `str` to each element of a list. -/
def pyStrList : List Json → List String
  | [] => []
  | j :: js => pyStr j :: pyStrList js

/-- Applies `str` to each field of a dict. -/
def pyStrFields : List (String × Json) → List String
  | [] => []
  | (k, v) :: fs => (k ++ ": " ++ pyStr v) :: pyStrFields fs
end

/-- Elements handed to the comma join in the markdown serializer.  The Python
`join` raises `TypeError` on a non-string element (unreachable for
schema-conformant payloads); such elements are rendered with `str()` here. -/
def Json.asJoinStr : Json → String
  | .str s => s
  | j => pyStr j

/-- Python `str.strip()`: drop leading and trailing whitespace (computed on
the character list). -/
def pyStrip (s : String) : String :=
  String.mk (((s.data.dropWhile Char.isWhitespace).reverse.dropWhile Char.isWhitespace).reverse)

/-- Python `str.replace("_", " ")` as used in the source (a single-character
pattern, so a character map). -/
def replaceUnderscores (s : String) : String :=
  String.mk (s.data.map fun c => if c = '_' then ' ' else c)

/-- Worker for `pyTitle`: tracks whether the previous character was
alphabetic. -/
def pyTitleGo : Bool → List Char → List Char
  | _, [] => []
  | prevAlpha, c :: cs =>
    (if c.isAlpha then (if prevAlpha then c.toLower else c.toUpper) else c) ::
      pyTitleGo c.isAlpha cs

/-- Python `str.title()` (ASCII approximation: a letter is uppercased after a
non-letter and lowercased otherwise). -/
def pyTitle (s : String) : String := String.mk (pyTitleGo false s.data)

/-- Does `hay` contain `needle` as a contiguous run? -/
def listContains (needle : List Char) : List Char → Bool
  | [] => needle.isEmpty
  | c :: cs => needle.isPrefixOf (c :: cs) || listContains needle cs

/-- Substring test used to state containment properties of serializer
output. -/
def strContains (hay needle : String) : Bool := listContains needle.data hay.data

namespace DataSterilizer

/-- The price-tier threshold table of `DataSterilizer.sterilize_itinerary`
(gpt_processor.py lines 257-264): `<2000` Budget, `<3500` Mid-range,
`<5000` Premium, otherwise Luxury. -/
def priceTier (price : ℚ) : String :=
  if price < 2000 then "Budget"
  else if price < 3500 then "Mid-range"
  else if price < 5000 then "Premium"
  else "Luxury"

/-- The per-day section of the markdown serializer
(`DataSterilizer.sterilize_itinerary`, gpt_processor.py lines 184-230).
The source also reads `day_type` here but never uses it. -/
def mdDayLines (day : Json) : List String :=
  let day_num := day.getD "day" Json.null
  let title := day.getD "title" (Json.str ("Day " ++ pyStr day_num))
  ["### Day " ++ pyStr day_num ++ ": " ++ pyStr title]
  ++ (let location := day.getD "location" Json.null
      if location.isTruthy then ["**Location:** " ++ pyStr location] else [])
  ++ (let altitude := day.getD "altitude_meters" Json.null
      if altitude.isTruthy then ["**Altitude:** " ++ pyStr altitude ++ "m"] else [])
  ++ (let distance := day.getD "distance_km" Json.null
      if distance.isTruthy then ["**Distance:** " ++ pyStr distance ++ "km"] else [])
  ++ (let hiking_hours := day.getD "hiking_hours" Json.null
      if hiking_hours.isTruthy then ["**Hiking Time:** " ++ pyStr hiking_hours ++ " hours"] else [])
  ++ (match day.getD "activities" (Json.arr []) with
      | Json.arr (a :: rest) =>
        ["**Activities:** " ++ String.intercalate ", " ((a :: rest).map Json.asJoinStr)]
      | _ => [])
  ++ (let accommodation := day.getD "accommodation_name" Json.null
      let acc_type := day.getD "accommodation_type" Json.null
      if accommodation.isTruthy then
        let typeShown :=
          match acc_type with
          | Json.str s => s != "" && s != "null"
          | t => t.isTruthy
        ["**Accommodation:** " ++ pyStr accommodation ++
          (if typeShown then " (" ++ pyStr acc_type ++ ")" else "")]
      else [])
  ++ (match day.getD "meals" (Json.arr []) with
      | Json.arr (m :: rest) =>
        ["**Meals:** " ++ String.intercalate ", " ((m :: rest).map Json.asJoinStr)]
      | _ => [])
  ++ [""]

/-- Embeds `DataSterilizer.sterilize_itinerary` (gpt_processor.py lines
147-284): the markdown serializer producing the sterilized training
response. -/
def sterilize_itinerary (data : Json) : String :=
  let tour_identity := data.getD "tour_identity" (Json.obj [])
  let headerLines := ["# " ++ pyStr (tour_identity.getD "tour_title" (Json.str "Tour Itinerary")), ""]
  let duration := data.getD "duration" (Json.obj [])
  let durationLines :=
    if duration.isTruthy then
      let total_days := duration.getD "total_program_days" (duration.getD "activity_days" (Json.num 0))
      let activity_days := duration.getD "activity_days" total_days
      ["**Duration:** " ++ pyStr activity_days ++ " days of activities in a " ++
        pyStr total_days ++ "-day program", ""]
    else []
  let itinerary_structure := data.getD "itinerary_structure" (Json.obj [])
  let overview := itinerary_structure.getD "overview" Json.null
  let overviewLines := if overview.isTruthy then ["**Overview:** " ++ pyStr overview, ""] else []
  let route_name := itinerary_structure.getD "route_name" Json.null
  let routeLines := if route_name.isTruthy then ["**Route:** " ++ pyStr route_name, ""] else []
  let days := itinerary_structure.getD "days" (Json.arr [])
  let dayLines :=
    if days.isTruthy then
      ["## Day-by-Day Itinerary", ""] ++ (days.asArr.map mdDayLines).flatten
    else []
  let inclusionLines :=
    match data.getD "inclusions" (Json.arr []) with
    | Json.arr (i :: rest) =>
      ["## What\x27s Included", ""] ++ (i :: rest).map (fun item => "- " ++ pyStr item) ++ [""]
    | _ => []
  let exclusionLines :=
    match data.getD "exclusions" (Json.arr []) with
    | Json.arr (e :: rest) =>
      ["## What\x27s Not Included", ""] ++ (e :: rest).map (fun item => "- " ++ pyStr item) ++ [""]
    | _ => []
  let pricing := data.getD "pricing" (Json.obj [])
  let pricingLines :=
    if (pricing.getD "price_displayed" (Json.bool false)).isTruthy then
      let price := pricing.getD "price_per_person_usd" Json.null
      let currency := pricing.getD "currency" (Json.str "USD")
      if price.isTruthy then
        let price_tier := priceTier price.asRat
        ["**Price Range:** " ++ price_tier ++ " ($" ++ pyStr price ++
          " per person in " ++ pyStr currency ++ ")"]
        ++ (let notes := pricing.getD "price_notes" Json.null
            if notes.isTruthy then ["**Pricing Notes:** " ++ pyStr notes] else [])
        ++ [""]
      else []
    else []
  let operator_reasoning := data.getD "operator_reasoning" (Json.obj [])
  let reasoningLines :=
    if operator_reasoning.isTruthy then
      ["## Why This Itinerary Works", ""]
      ++ (operator_reasoning.items.map (fun kv =>
            if kv.2.isTruthy then
              ["**" ++ pyTitle (replaceUnderscores kv.1) ++ ":** " ++ pyStr kv.2]
            else [])).flatten
      ++ [""]
    else []
  pyStrip (String.intercalate "\n"
    (headerLines ++ durationLines ++ overviewLines ++ routeLines ++ dayLines ++
      inclusionLines ++ exclusionLines ++ pricingLines ++ reasoningLines))

/-- Embeds `DataSterilizer.sterilize_for_training` (gpt_processor.py 286-310):
the sterilized `{instruction, response, metadata}` training record.  A truthy
non-list `derived_user_questions` would be indexed (`[0]`) in Python; only
the list shape is modelled (the extraction schema produces a list). -/
def sterilize_for_training (data : Json) : Json :=
  let sterilized_response := sterilize_itinerary data
  let instruction :=
    match data.getD "derived_user_questions" (Json.arr []) with
    | Json.arr (q :: _) => q
    | _ => data.getD "generated_instruction" (Json.str "")
  Json.obj
    [("instruction", instruction),
     ("response", Json.str sterilized_response),
     ("metadata", Json.obj
        [("source_type", data.getD "source_type" Json.null),
         ("operator_name", data.getD "operator_name" Json.null),
         ("country", data.getD "country" Json.null),
         ("destination", data.getD "destination" Json.null),
         ("tour_category", (data.getD "tour_identity" (Json.obj [])).getD "tour_category" Json.null),
         ("duration_days", (data.getD "duration" (Json.obj [])).getD "activity_days" Json.null),
         ("data_quality", data.getD "data_quality_tags" (Json.obj []))])]

end DataSterilizer

/-! ## A model of `json.loads`

The narrative serializer accepts a string argument and parses it with
`json.loads`.  The parser below models the JSON grammar: objects, arrays,
strings with the standard escapes (`\uXXXX` without surrogate pairing),
numbers (an integer literal yields a Python int, a fraction or exponent a
float), `true`/`false`/`null` and whitespace, requiring the whole input to be
consumed.  As in CPython, the constants `NaN`, `Infinity` and `-Infinity`
are accepted (the default `parse_constant`), producing non-finite floats;
and the integer part of a number is a single `0` or starts with a nonzero
digit, so a leading-zero literal such as `01` terminates the number after
the `0` and the remainder is then rejected, exactly as `json.loads` rejects
it as extra data. -/

/-- Skip JSON whitespace. -/
def skipWs : List Char → List Char
  | c :: cs => if c = ' ' ∨ c = '\t' ∨ c = '\n' ∨ c = '\r' then skipWs cs else c :: cs
  | [] => []

/-- Take a maximal run of decimal digits. -/
def takeDigits : List Char → List Char × List Char
  | c :: cs =>
    if c.isDigit then
      let (ds, rest) := takeDigits cs
      (c :: ds, rest)
    else ([], c :: cs)
  | [] => ([], [])

/-- Value of a digit run. -/
def digitsToNat (ds : List Char) : Nat := ds.foldl (fun acc c => acc * 10 + (c.toNat - 48)) 0

/-- Build the number value: no fraction and no exponent gives a Python int,
otherwise a float (exact rational). -/
def mkNumber (neg : Bool) (intDs fracDs : List Char) (hasExp expNeg : Bool)
    (expDs : List Char) : Json :=
  if fracDs.isEmpty && !hasExp then
    Json.num (if neg then -(digitsToNat intDs : Int) else (digitsToNat intDs : Int))
  else
    let mantissa : ℚ := (digitsToNat intDs : ℚ) + (digitsToNat fracDs : ℚ) / ((10 : ℚ) ^ fracDs.length)
    let e : Int := if expNeg then -(digitsToNat expDs : Int) else (digitsToNat expDs : Int)
    let q := mantissa * (10 : ℚ) ^ e
    Json.fnum (PyFloat.finite (if neg then -q else q))

/-- Parse an optional exponent part after the integer/fraction digits. -/
def parseExpPart (neg : Bool) (intDs fracDs : List Char) (hasFrac : Bool) :
    List Char → Option (Json × List Char)
  | c :: rest =>
    if c = 'e' ∨ c = 'E' then
      let (expNeg, rest1) :=
        match rest with
        | '+' :: r => (false, r)
        | '-' :: r => (true, r)
        | _ => (false, rest)
      let (expDs, rest2) := takeDigits rest1
      if expDs.isEmpty then none
      else some (mkNumber neg intDs fracDs true expNeg expDs, rest2)
    else some (mkNumber neg intDs fracDs hasFrac false [], c :: rest)
  | [] => some (mkNumber neg intDs fracDs hasFrac false [], [])

/-- Parse a JSON number.  Following the CPython number regex, the integer
part is a single `0` or a nonzero digit followed by digits: after a leading
`0` no further integer digits are consumed, so the surrounding grammar
rejects leading-zero literals as stray trailing input. -/
def parseNumber (cs : List Char) : Option (Json × List Char) :=
  let (neg, cs1) :=
    match cs with
    | '-' :: rest => (true, rest)
    | _ => (false, cs)
  let (intDs, cs2) :=
    match cs1 with
    | '0' :: rest => (['0'], rest)
    | _ => takeDigits cs1
  if intDs.isEmpty then none
  else
    match cs2 with
    | '.' :: rest =>
      let (fracDs, cs3) := takeDigits rest
      if fracDs.isEmpty then none else parseExpPart neg intDs fracDs true cs3
    | _ => parseExpPart neg intDs [] false cs2

/-- Value of a hexadecimal digit. -/
def hexVal (c : Char) : Option Nat :=
  if c.isDigit then some (c.toNat - 48)
  else if 'a' ≤ c ∧ c ≤ 'f' then some (c.toNat - 87)
  else if 'A' ≤ c ∧ c ≤ 'F' then some (c.toNat - 55)
  else none

/-- Parse the body of a JSON string after the opening quote; returns the
characters and the remaining input after the closing quote.  Control
characters are rejected as in the strict mode of the Python parser. -/
def parseStringBody : Nat → List Char → Option (List Char × List Char)
  | 0, _ => none
  | _ + 1, [] => none
  | fuel + 1, c :: cs =>
    if c = '\"' then some ([], cs)
    else if c = '\\' then
      match cs with
      | [] => none
      | e :: cs2 =>
        let cont := fun (ch : Char) (rest : List Char) =>
          match parseStringBody fuel rest with
          | some (body, r) => some (ch :: body, r)
          | none => none
        if e = '\"' then cont '\"' cs2
        else if e = '\\' then cont '\\' cs2
        else if e = '/' then cont '/' cs2
        else if e = 'b' then cont (Char.ofNat 8) cs2
        else if e = 'f' then cont (Char.ofNat 12) cs2
        else if e = 'n' then cont '\n' cs2
        else if e = 'r' then cont '\r' cs2
        else if e = 't' then cont '\t' cs2
        else if e = 'u' then
          match cs2 with
          | h1 :: h2 :: h3 :: h4 :: cs3 =>
            match hexVal h1, hexVal h2, hexVal h3, hexVal h4 with
            | some v1, some v2, some v3, some v4 =>
              cont (Char.ofNat (((v1 * 16 + v2) * 16 + v3) * 16 + v4)) cs3
            | _, _, _, _ => none
          | _ => none
        else none
    else if c.toNat < 32 then none
    else
      match parseStringBody fuel cs with
      | some (body, r) => some (c :: body, r)
      | none => none

/-- Parse a literal keyword such as `true`. -/
def parseLit (lit : List Char) (j : Json) (cs : List Char) : Option (Json × List Char) :=
  if lit.isPrefixOf cs then some (j, cs.drop lit.length) else none

/-- Insert a parsed object field with Python dict semantics: a duplicate key
overwrites the earlier value in place. -/
def insertField (fs : List (String × Json)) (k : String) (v : Json) : List (String × Json) :=
  match fs with
  | [] => [(k, v)]
  | (k0, v0) :: rest => if k0 = k then (k0, v) :: rest else (k0, v0) :: insertField rest k v

mutual
/-- Parse one JSON value (fuel-bounded recursion; `jsonParse` supplies ample
fuel). -/
def parseValue : Nat → List Char → Option (Json × List Char)
  | 0, _ => none
  | fuel + 1, cs =>
    match skipWs cs with
    | [] => none
    | c :: rest =>
      if c = '\"' then
        match parseStringBody (rest.length + 1) rest with
        | some (body, r) => some (Json.str (String.mk body), r)
        | none => none
      else if c = Char.ofNat 123 then parseObjRest fuel rest
      else if c = '[' then parseArrRest fuel rest
      else if c = 't' then parseLit ['t', 'r', 'u', 'e'] (Json.bool true) (c :: rest)
      else if c = 'f' then parseLit ['f', 'a', 'l', 's', 'e'] (Json.bool false) (c :: rest)
      else if c = 'n' then parseLit ['n', 'u', 'l', 'l'] Json.null (c :: rest)
      else if c = 'N' then parseLit ['N', 'a', 'N'] (Json.fnum PyFloat.nan) (c :: rest)
      else if c = 'I' then
        parseLit ['I', 'n', 'f', 'i', 'n', 'i', 't', 'y'] (Json.fnum PyFloat.inf) (c :: rest)
      else if ['-', 'I', 'n', 'f', 'i', 'n', 'i', 't', 'y'].isPrefixOf (c :: rest) then
        some (Json.fnum PyFloat.neginf, (c :: rest).drop 9)
      else parseNumber (c :: rest)

/-- Parse the rest of an array after the opening bracket. -/
def parseArrRest : Nat → List Char → Option (Json × List Char)
  | 0, _ => none
  | fuel + 1, cs =>
    match skipWs cs with
    | ']' :: rest => some (Json.arr [], rest)
    | cs1 =>
      match parseValue fuel cs1 with
      | some (v, r) => parseArrItems fuel [v] r
      | none => none

/-- Parse `, value` continuations of an array. -/
def parseArrItems : Nat → List Json → List Char → Option (Json × List Char)
  | 0, _, _ => none
  | fuel + 1, acc, cs =>
    match skipWs cs with
    | ',' :: rest =>
      match parseValue fuel rest with
      | some (v, r) => parseArrItems fuel (acc ++ [v]) r
      | none => none
    | ']' :: rest => some (Json.arr acc, rest)
    | _ => none

/-- Parse the rest of an object after the opening brace. -/
def parseObjRest : Nat → List Char → Option (Json × List Char)
  | 0, _ => none
  | fuel + 1, cs =>
    match skipWs cs with
    | [] => none
    | c :: rest =>
      if c = Char.ofNat 125 then some (Json.obj [], rest)
      else parseObjItems fuel [] (c :: rest)

/-- Parse `"key": value` members of an object. -/
def parseObjItems : Nat → List (String × Json) → List Char → Option (Json × List Char)
  | 0, _, _ => none
  | fuel + 1, acc, cs =>
    match skipWs cs with
    | '\"' :: rest =>
      match parseStringBody (rest.length + 1) rest with
      | some (body, r1) =>
        match skipWs r1 with
        | ':' :: r2 =>
          match parseValue fuel r2 with
          | some (v, r3) =>
            let acc1 := insertField acc (String.mk body) v
            match skipWs r3 with
            | ',' :: r4 => parseObjItems fuel acc1 r4
            | c :: r4 => if c = Char.ofNat 125 then some (Json.obj acc1, r4) else none
            | [] => none
          | none => none
        | _ => none
      | none => none
    | _ => none
end

/-- Model of `json.loads`: parse one value and require only whitespace to
remain, as Python does. -/
def jsonParse (s : String) : Option Json :=
  match parseValue (2 * s.length + 2) s.data with
  | some (j, rest) => if (skipWs rest).isEmpty then some j else none
  | none => none

namespace DataSterilizer

/-- One day counts as an activity day in the narrative serializer when it is
a dict whose `day_type` (default `"activity"`) is `activity`, `summit` or
`hiking` (gpt_processor.py lines 59-65). -/
def isActivityDay (day : Json) : Bool :=
  match day with
  | Json.obj _ =>
    match day.getD "day_type" (Json.str "activity") with
    | Json.str s => s == "activity" || s == "summit" || s == "hiking"
    | _ => false
  | _ => false

/-- The `activity_days` accumulator loop of the narrative serializer
(gpt_processor.py lines 60-65). -/
def countActivityDays : List Json → Nat
  | [] => 0
  | day :: rest => (if isActivityDay day then 1 else 0) + countActivityDays rest

/-- Embeds `total_days = len([d for d in days if isinstance(d, dict)])`
(gpt_processor.py line 68). -/
def countTotalDays (days : List Json) : Nat := (days.filter Json.isObj).length

/-- Python `float(x)` applied to the `cost` of a day (gpt_processor.py lines
119-126): numbers and bools convert; `None` never reaches the call; a
list/dict raises `TypeError`, which the source catches and ignores, so it
contributes nothing, as `none` does here.  A numeric string (which Python
would convert) is not modelled, and a non-finite float cost (which would
propagate through the float arithmetic) is mapped to `0` -- no payload in
this development uses either. -/
def pyFloatOfCost : Json → Option ℚ
  | Json.num n => some (n : ℚ)
  | Json.fnum (PyFloat.finite q) => some q
  | Json.fnum _ => some 0
  | Json.bool b => some (if b then 1 else 0)
  | _ => none

/-- The per-day section of the narrative serializer
(gpt_processor.py lines 87-116).  A truthy non-string `day_type` or a
non-string `accommodation_type` would raise in Python (unreachable for
schema-conformant payloads) and emits nothing here. -/
def narrativeDayLines (day : Json) : List String :=
  let day_num := day.getD "day" (Json.str "?")
  let day_title := day.getD "title" (Json.str "No Title")
  ["Day " ++ pyStr day_num ++ ": " ++ pyStr day_title]
  ++ (match day.getD "day_type" Json.null with
      | Json.str s =>
        if s != "" && s != "activity" then ["  Type: " ++ pyTitle (replaceUnderscores s)] else []
      | _ => [])
  ++ (match day.getD "activities" (Json.arr []) with
      | Json.arr (a :: rest) =>
        ["  Activities: " ++ String.intercalate ", " (((a :: rest).filter Json.isTruthy).map pyStr)]
      | _ => [])
  ++ (let transport := day.getD "transport" Json.null
      if transport.isTruthy then ["  Transport: " ++ pyStr transport] else [])
  ++ (let acc_name := day.getD "accommodation_name" Json.null
      let acc_type :=
        match day.getD "accommodation_type" (Json.str "") with
        | Json.str s => pyTitle (replaceUnderscores s)
        | _ => ""
      if acc_name.isTruthy then
        ["  Accommodation: " ++
          (if acc_type != "" then pyStr acc_name ++ " (" ++ acc_type ++ ")" else pyStr acc_name)]
      else [])
  ++ (match day.getD "meals" (Json.arr []) with
      | Json.arr (m :: rest) =>
        ["  Meals: " ++ String.intercalate ", " (((m :: rest).filter Json.isTruthy).map pyStr)]
      | _ => [])

/-- The day loop of the narrative serializer (gpt_processor.py lines 83-128):
non-dict entries are skipped; each dict day contributes its section, a blank
line, and its convertible `cost` to the running total with `has_pricing`
flagged. -/
def narrativeDays : List Json → List String × ℚ × Bool
  | [] => ([], 0, false)
  | day :: rest =>
    let (ls, c, hp) := narrativeDays rest
    match day with
    | Json.obj _ =>
      let here := narrativeDayLines day ++ [""]
      match pyFloatOfCost (day.getD "cost" Json.null) with
      | some q => (here ++ ls, c + q, true)
      | none => (here ++ ls, c, hp)
    | _ => (ls, c, hp)

/-- Python `int()` truncates toward zero. -/
def pyIntTrunc (q : ℚ) : Int := if q < 0 then -((-q).floor) else q.floor

/-- Group a digit list into threes for `pyCommaFmt`. -/
def chunk3 : List Char → List (List Char)
  | [] => []
  | [a] => [[a]]
  | [a, b] => [[a, b]]
  | a :: b :: c :: more => [a, b, c] :: chunk3 more

/-- The Python `,` format specifier: thousands separators. -/
def pyCommaFmt (n : Int) : String :=
  let ds := (toString n.natAbs).data
  let grouped := ((chunk3 ds.reverse).map List.reverse).reverse
  (if n < 0 then "-" else "") ++ String.intercalate "," (grouped.map String.mk)

/-- The body of `DataSterilizer.serialize_itinerary` once the argument is
known to be a dict (gpt_processor.py lines 48-145); a non-dict returns
`"Invalid itinerary format"`.  The budget-range arithmetic uses exact
rationals where Python uses binary floats. -/
def serializeDict (itinerary : Json) : String :=
  match itinerary with
  | Json.obj _ =>
    let days0 := (itinerary.getD "itinerary_structure" (Json.obj [])).getD "days" (Json.arr [])
    let days :=
      if !days0.isTruthy && itinerary.hasKey "days" then itinerary.getD "days" Json.null
      else days0
    let dayList := days.asArr
    let activity_days := countActivityDays dayList
    let total_days := countTotalDays dayList
    let duration_info :=
      (if activity_days > 0 then [toString activity_days ++ " days of activities"] else [])
      ++ (if total_days > 0 then [toString total_days ++ " days total program"] else [])
    let durationLines :=
      if !duration_info.isEmpty then
        ["Duration: " ++ String.intercalate " | " duration_info ++ "\n"]
      else []
    let folded := narrativeDays dayList
    let budgetLines :=
      if folded.2.2 then
        let lower_bound := pyIntTrunc (folded.2.1 * (85 / 100 : ℚ))
        let upper_bound := pyIntTrunc (folded.2.1 * (115 / 100 : ℚ))
        ["\nEstimated Budget Range: $" ++ pyCommaFmt lower_bound ++ " - $" ++
           pyCommaFmt upper_bound ++ " per person",
         "Note: Prices are approximate and can vary based on group size, season, and availability."]
      else []
    let inclusionLines :=
      if itinerary.hasKey "inclusions" then
        match itinerary.getD "inclusions" Json.null with
        | Json.arr (i :: rest) =>
          ["\nIncluded:" ++ "\n- " ++
            String.intercalate "\n- " (((i :: rest).filter Json.isTruthy).map pyStr)]
        | _ => []
      else []
    let exclusionLines :=
      if itinerary.hasKey "exclusions" then
        match itinerary.getD "exclusions" Json.null with
        | Json.arr (e :: rest) =>
          ["\nNot Included:" ++ "\n- " ++
            String.intercalate "\n- " (((e :: rest).filter Json.isTruthy).map pyStr)]
        | _ => []
      else []
    String.intercalate "\n"
      (["Tour: " ++ pyStr (itinerary.getD "title" (Json.str "Untitled Tour")) ++ "\n"]
        ++ durationLines ++ folded.1 ++ budgetLines ++ inclusionLines ++ exclusionLines)
  | _ => "Invalid itinerary format"

/-- Embeds `DataSterilizer.serialize_itinerary` (gpt_processor.py 30-145), the
narrative serializer: a string argument is parsed with `json.loads` first
(`"Invalid JSON data"` on failure), then a non-dict yields
`"Invalid itinerary format"`. -/
def serialize_itinerary (itinerary : Json) : String :=
  match itinerary with
  | Json.str s =>
    match jsonParse s with
    | none => "Invalid JSON data"
    | some j => serializeDict j
  | j => serializeDict j

end DataSterilizer

/-! ## The scraper (`tour/services/scraper.py`) -/

/-- The pieces BeautifulSoup extraction yields inside the try block of
`scrape_url` (the external HTTP and HTML libraries are modelled abstractly
by the outcome below). -/
structure ParsedPage where
  page_title : String
  meta_description : String
  meta_keywords : String
  raw_text : String
deriving DecidableEq

/-- Outcome of the fetch-and-parse attempt inside the try block of
`scrape_url`:
the page fetched and parsed, a `requests.exceptions.RequestException` (which
includes the `raise_for_status` path, before `raw_html` is assigned), or any
other exception raised during parsing (after `raw_html` is assigned). -/
inductive FetchOutcome where
  | ok (html : String) (page : ParsedPage)
  | requestError (msg : String)
  | parseError (html : String) (msg : String)

/-- Shape of the result dict `scrape_url` returns (scraper.py lines 63-71). -/
structure ScrapeResult where
  success : Bool
  raw_html : String
  raw_text : String
  page_title : String
  meta_description : String
  meta_keywords : String
  error : String
deriving DecidableEq

namespace ItineraryScraper

/-- Embeds `ItineraryScraper.scrape_url` (scraper.py 50-112): the result dict
starts all-empty with `success=False`; the try block fills it, and the two
except clauses classify failures into `error` with a `Request failed: ` or
`Parsing failed: ` prefix.  Rate limiting (a pure delay) has no effect on the
result and is not modelled. -/
def scrape_url (outcome : FetchOutcome) : ScrapeResult :=
  let result : ScrapeResult :=
    { success := false, raw_html := "", raw_text := "", page_title := "",
      meta_description := "", meta_keywords := "", error := "" }
  match outcome with
  | .ok html page =>
    { result with
        raw_html := html, page_title := page.page_title,
        meta_description := page.meta_description, meta_keywords := page.meta_keywords,
        raw_text := page.raw_text, success := true }
  | .requestError msg => { result with error := "Request failed: " ++ msg }
  | .parseError html msg => { result with raw_html := html, error := "Parsing failed: " ++ msg }

end ItineraryScraper

/-- Status of a `ScrapeQueue` row (models.py lines 745-750). -/
inductive QStatus where
  | pending
  | in_progress
  | completed
  | failed
deriving DecidableEq

/-- A `ScrapeQueue` row (models.py lines 742-768); `processed_at_set` records
whether the nullable `processed_at` timestamp has been filled.  Field
defaults are those of the model: status "pending", retry_count 0,
max_retries 3, empty error_message. -/
structure ScrapeQueueItem where
  status : QStatus := .pending
  retry_count : Nat := 0
  max_retries : Nat := 3
  error_message : String := ""
  processed_at_set : Bool := false
deriving DecidableEq

/-- A `RawItinerary` row (models.py lines 771-801) with its field
defaults. -/
structure RawItinerary where
  source_type : String := "scraped"
  source_url : String := ""
  raw_html : String := ""
  raw_text : String := ""
  page_title : String := ""
  meta_description : String := ""
  meta_keywords : String := ""
  is_processed : Bool := false
  processing_error : String := ""
deriving DecidableEq

namespace ItineraryScraper

/-- Embeds `ItineraryScraper.process_queue_item` (scraper.py 232-287): marks
the item in progress, scrapes, and on success creates a `RawItinerary` and
completes the item; on failure (a falsy scrape result raises
`Exception` on the error string, caught below) increments `retry_count`, stores
the error message, and fails the item permanently once
`retry_count >= max_retries`, otherwise resets it to pending.  Returns the
updated item, the boolean result, and the created row if any.  Source-stat
counters live on `ScrapingSource` and are not part of the queue item. -/
def process_queue_item (item : ScrapeQueueItem) (fetch : FetchOutcome) :
    ScrapeQueueItem × Bool × Option RawItinerary :=
  let item1 := { item with status := QStatus.in_progress }
  let result := scrape_url fetch
  if result.success then
    ({ item1 with status := QStatus.completed, processed_at_set := true }, true,
     some { source_type := "scraped", source_url := "",
            raw_html := result.raw_html, raw_text := result.raw_text,
            page_title := result.page_title, meta_description := result.meta_description,
            meta_keywords := result.meta_keywords })
  else
    let item2 := { item1 with retry_count := item1.retry_count + 1, error_message := result.error }
    if item2.max_retries ≤ item2.retry_count then
      ({ item2 with status := QStatus.failed }, false, none)
    else
      ({ item2 with status := QStatus.pending }, false, none)

/-- One disciplined queue step: `process_pending_queue` (scraper.py lines
289-312), the only caller of `process_queue_item` in the repository, invokes
it only on items whose status is `pending`. -/
def disciplinedStep (q r : ScrapeQueueItem) : Prop :=
  q.status = QStatus.pending ∧ ∃ fetch, r = (process_queue_item q fetch).1

/-- Queue-item states reachable from a freshly enqueued row (created with the
model defaults, any configured `max_retries`) by disciplined
`process_queue_item` invocations. -/
inductive QReach : ScrapeQueueItem → Prop where
  | init (mr : Nat) :
      QReach { status := QStatus.pending, retry_count := 0, max_retries := mr,
               error_message := "", processed_at_set := false }
  | step (q : ScrapeQueueItem) (fetch : FetchOutcome) (h : QReach q)
      (hp : q.status = QStatus.pending) : QReach (process_queue_item q fetch).1

end ItineraryScraper

/-! ## The GPT processor (`tour/services/gpt_processor.py`, class
`GPTProcessor`) -/

/-- Outcome of the try block of `process_raw_itinerary` up to and including
`json.loads` of the model response: the response parsed into structured
data, `json.loads` raised `JSONDecodeError`, or any other exception was
raised (API failure, etc.). -/
inductive ExtractionOutcome where
  | parsed (data : Json)
  | jsonError (msg : String)
  | otherError (msg : String)

/-- A `ProcessedItinerary` row as written by the upsert in
`process_raw_itinerary` (gpt_processor.py lines 566-589).  The timing fields
(`gpt_processing_time`, `gpt_tokens_used`) are wall-clock measurements and
are not modelled. -/
structure ProcessedItinerary where
  generated_instruction : Json
  title : Json
  destination_country : Json
  destinations : List Json
  duration_days : Json
  budget_level : String
  estimated_price_usd : Json
  trip_type : Json
  group_type : String
  itinerary_json : Json
  inclusions : Json
  exclusions : Json
  accommodations : List Json
  activities : List Json
  training_json : Json
  gpt_model_used : String
  status : String

/-- Accommodation dicts collected from the extracted days
(gpt_processor.py lines 544-552). -/
def collectAccommodations (days : List Json) : List Json :=
  (days.filter fun day => (day.getD "accommodation_name" Json.null).isTruthy).map fun day =>
    Json.obj
      [("name", day.getD "accommodation_name" Json.null),
       ("type", day.getD "accommodation_type" Json.null),
       ("location", day.getD "location" Json.null)]

/-- Activity lists concatenated over the extracted days
(gpt_processor.py line 553).  The source then deduplicates with
`list(set(activities))`, whose ordering Python leaves unspecified; the
deduplication is therefore not modelled (no claim reads this field). -/
def collectActivities (days : List Json) : List Json :=
  (days.map fun day => (day.getD "activities" (Json.arr [])).asArr).flatten

namespace GPTProcessor

/-- The `ProcessedItinerary` defaults dict built from the parsed extraction
`data` (gpt_processor.py lines 536-589). -/
def buildProcessed (raw : RawItinerary) (data : Json) : ProcessedItinerary :=
  let tour_identity := data.getD "tour_identity" (Json.obj [])
  let duration := data.getD "duration" (Json.obj [])
  let itinerary_structure := data.getD "itinerary_structure" (Json.obj [])
  let pricing := data.getD "pricing" (Json.obj [])
  let days := (itinerary_structure.getD "days" (Json.arr [])).asArr
  let first_question :=
    match data.getD "derived_user_questions" (Json.arr []) with
    | Json.arr (q :: _) => q
    | _ => Json.str ""
  let activity_days := duration.getD "activity_days" Json.null
  { generated_instruction := first_question,
    title := tour_identity.getD "tour_title"
      (Json.str (if raw.page_title != "" then raw.page_title else "Untitled")),
    destination_country := data.getD "country" (Json.str ""),
    destinations :=
      if (data.getD "destination" Json.null).isTruthy then [data.getD "destination" (Json.str "")]
      else [],
    duration_days :=
      if activity_days.isTruthy then activity_days
      else duration.getD "total_program_days" Json.null,
    budget_level := "mid_range",
    estimated_price_usd := pricing.getD "price_per_person_usd" Json.null,
    trip_type := tour_identity.getD "tour_category" (Json.str ""),
    group_type :=
      if ((data.getD "assumptions_and_flexibility" (Json.obj [])).getD
            "group_tour_available" Json.null).isTruthy
      then "Group" else "Private",
    itinerary_json := itinerary_structure,
    inclusions := data.getD "inclusions" (Json.arr []),
    exclusions := data.getD "exclusions" (Json.arr []),
    accommodations := collectAccommodations days,
    activities := collectActivities days,
    training_json := data,
    gpt_model_used := "gpt-4o",
    status := "pending_review" }

/-- The database state `process_raw_itinerary` touches: the `RawItinerary`
row and its dependent `ProcessedItinerary` (the upsert is keyed by the raw
row, so at most one exists). -/
structure ProcState where
  raw : RawItinerary
  processed : Option ProcessedItinerary

/-- `GPTProcessor.process_raw_itinerary` (gpt_processor.py lines 483-613):
an already-processed row is refused unless forced (returns `None`, no state
change); a parsed extraction upserts the `ProcessedItinerary` and marks the
raw row processed; `JSONDecodeError` and any other exception store an error
message on the raw row (prefixed `JSON parsing error: ` for the former) and
return `None`. -/
def process_raw_itinerary (st : ProcState) (outcome : ExtractionOutcome)
    (force_reprocess : Bool := false) : Option ProcessedItinerary × ProcState :=
  if st.raw.is_processed && !force_reprocess then (none, st)
  else
    match outcome with
    | .parsed data =>
      let processed := buildProcessed st.raw data
      (some processed,
       { raw := { st.raw with is_processed := true }, processed := some processed })
    | .jsonError msg =>
      (none, { st with raw := { st.raw with processing_error := "JSON parsing error: " ++ msg } })
    | .otherError msg =>
      (none, { st with raw := { st.raw with processing_error := msg } })

/-- The queryset filter of `process_pending_raw_itineraries`
(gpt_processor.py lines 623-626): the first `max_items` rows with
`is_processed=False` and empty `processing_error`. -/
def process_pending_selection (db : List RawItinerary) (max_items : Nat) : List RawItinerary :=
  (db.filter fun r => !r.is_processed && r.processing_error == "").take max_items

/-- `GPTProcessor.process_pending_raw_itineraries` (gpt_processor.py lines
615-642): processes the selected rows sequentially, counting
`(processed, succeeded, failed)`; the extraction outcome of each row is supplied
by `outcomeFor` and its dependent processed row is threaded per item. -/
def process_pending_raw_itineraries (db : List RawItinerary)
    (outcomeFor : RawItinerary → ExtractionOutcome) (max_items : Nat := 5) :
    Nat × Nat × Nat :=
  (process_pending_selection db max_items).foldl
    (fun stats raw =>
      match (process_raw_itinerary ⟨raw, none⟩ (outcomeFor raw)).1 with
      | some _ => (stats.1 + 1, stats.2.1 + 1, stats.2.2)
      | none => (stats.1 + 1, stats.2.1, stats.2.2 + 1))
    (0, 0, 0)

end GPTProcessor

/-! ## The review state machine (`tour/views.py`, `review_item`) -/

/-- The review fields of a `ProcessedItinerary` touched by the review
transitions (models.py lines 874-878): the reviewer is recorded by identity,
the review timestamp as an abstract time value when set. -/
structure ReviewRecord where
  status : String
  reviewer : Option String
  reviewed_at : Option Nat
  reviewer_notes : String
deriving DecidableEq

/-- The review-transition dispatch of `review_item` (views.py lines
1942-1968) for the acting `user`, the current time `now` and the posted
`notes`: `approve` and `reject` stamp status, reviewer and reviewed-at;
`needs_revision` (views.py 1963-1968) stamps status and reviewer (line 1965)
but not reviewed-at.  The `save` action
(views.py lines 1971-2002) edits content fields only and never touches
`status`, `reviewer` or `reviewed_at`; an unknown action changes nothing. -/
def review_item_action (p : ReviewRecord) (action : String) (user : String)
    (now : Nat) (notes : String) : ReviewRecord :=
  if action = "approve" then
    { p with status := "approved", reviewer := some user, reviewed_at := some now,
             reviewer_notes := notes }
  else if action = "reject" then
    { p with status := "rejected", reviewer := some user, reviewed_at := some now,
             reviewer_notes := notes }
  else if action = "needs_revision" then
    { p with status := "needs_revision", reviewer := some user, reviewer_notes := notes }
  else p

/-! ## Claims -/

/-- The end-to-end scenario payload: pricing displayed with
price_per_person_usd = 3500. -/
def pricingPayload3500 : Json :=
  Json.obj
    [("tour_identity", Json.obj [("tour_title", Json.str "Kilimanjaro Lemosho Route Trek")]),
     ("pricing", Json.obj
        [("price_displayed", Json.bool true),
         ("price_per_person_usd", Json.num 3500),
         ("currency", Json.str "USD")])]

/-- Claim C1 (code_bug).  The claim says the sterilized output never
contains an exact numeric price adjacent to a currency symbol; the markdown
serializer does emit the tier band "Premium" for a displayed price of 3500,
but it also interpolates the exact price right after the dollar sign
(gpt_processor.py line 266, directly under the comment saying the price is
converted to a tier instead of the exact price), so the sterilized response
contains the substring "$3500". -/
theorem c1_exact_price_emitted :
    strContains (DataSterilizer.sterilize_itinerary pricingPayload3500) "Premium" = true ∧
    strContains (DataSterilizer.sterilize_itinerary pricingPayload3500) "$3500" = true :=
  ⟨by decide, by decide⟩

/-- Rank of a tier label on the Budget < Mid-range < Premium < Luxury
scale, for stating monotonicity of the tier table. -/
def tierRank : String → Nat
  | "Budget" => 0
  | "Mid-range" => 1
  | "Premium" => 2
  | _ => 3

/-- Claim C2 (confirmed).  The price-tier mapping of the markdown serializer
is boundary-exact (1999 Budget, 2000 and 3499 Mid-range, 3500 and 4999
Premium, 5000 Luxury) and monotonic in the price. -/
theorem c2_price_tier_mapping :
    DataSterilizer.priceTier 1999 = "Budget" ∧
    DataSterilizer.priceTier 2000 = "Mid-range" ∧
    DataSterilizer.priceTier 3499 = "Mid-range" ∧
    DataSterilizer.priceTier 3500 = "Premium" ∧
    DataSterilizer.priceTier 4999 = "Premium" ∧
    DataSterilizer.priceTier 5000 = "Luxury" ∧
    ∀ p q : ℚ, p ≤ q →
      tierRank (DataSterilizer.priceTier p) ≤ tierRank (DataSterilizer.priceTier q) := by
  refine ⟨by norm_num [DataSterilizer.priceTier], by norm_num [DataSterilizer.priceTier],
    by norm_num [DataSterilizer.priceTier], by norm_num [DataSterilizer.priceTier],
    by norm_num [DataSterilizer.priceTier], by norm_num [DataSterilizer.priceTier],
    fun p q hpq => ?_⟩
  unfold DataSterilizer.priceTier
  split_ifs <;> first | decide | (exfalso; linarith)

/-- Witness for C2: the monotonicity part applied at the concrete prices
1000 and 6000. -/
theorem c2_price_tier_mapping_witness :
    (1000 : ℚ) ≤ 6000 ∧
    tierRank (DataSterilizer.priceTier 1000) ≤ tierRank (DataSterilizer.priceTier 6000) :=
  ⟨by norm_num, c2_price_tier_mapping.2.2.2.2.2.2 1000 6000 (by norm_num)⟩

/-- A freshly enqueued queue item with the model defaults
(max_retries = 3). -/
def freshQueueItem : ScrapeQueueItem :=
  { status := QStatus.pending, retry_count := 0, max_retries := 3,
    error_message := "", processed_at_set := false }

/-- One failing invocation of `process_queue_item` (a request timeout). -/
def failInvoke (q : ScrapeQueueItem) : ScrapeQueueItem :=
  (ItineraryScraper.process_queue_item q (FetchOutcome.requestError "timeout")).1

/-- Claim C3 counterexample.  Nothing in `process_queue_item` guards against
being invoked on a non-pending item, so a sequence of four failing
invocations on a fresh item (max_retries = 3) leaves the item failed after
the third yet still retries it a fourth time, driving retry_count to 4,
which exceeds max_retries. -/
theorem c3_counterexample :
    (failInvoke (failInvoke (failInvoke freshQueueItem))).status = QStatus.failed ∧
    (failInvoke (failInvoke (failInvoke (failInvoke freshQueueItem)))).retry_count = 4 ∧
    freshQueueItem.max_retries = 3 := by
  refine ⟨?_, ?_, rfl⟩ <;> decide

/-- The `max_retries` field is never written by `process_queue_item`. -/
theorem process_queue_item_max_retries (q : ScrapeQueueItem) (fetch : FetchOutcome) :
    (ItineraryScraper.process_queue_item q fetch).1.max_retries = q.max_retries := by
  simp only [ItineraryScraper.process_queue_item]
  split_ifs <;> rfl

/-- Case analysis of one `process_queue_item` invocation: success completes
the item without touching retry_count; failure increments retry_count and
either fails the item (bound reached) or resets it to pending. -/
theorem process_queue_item_cases (q : ScrapeQueueItem) (fetch : FetchOutcome) :
    ((ItineraryScraper.process_queue_item q fetch).1.status = QStatus.completed ∧
      (ItineraryScraper.process_queue_item q fetch).1.retry_count = q.retry_count) ∨
    ((ItineraryScraper.process_queue_item q fetch).1.retry_count = q.retry_count + 1 ∧
      ((q.max_retries ≤ q.retry_count + 1 ∧
          (ItineraryScraper.process_queue_item q fetch).1.status = QStatus.failed) ∨
       (q.retry_count + 1 < q.max_retries ∧
          (ItineraryScraper.process_queue_item q fetch).1.status = QStatus.pending))) := by
  simp only [ItineraryScraper.process_queue_item]
  split_ifs with h1 h2
  · exact Or.inl ⟨rfl, rfl⟩
  · exact Or.inr ⟨rfl, Or.inl ⟨h2, rfl⟩⟩
  · exact Or.inr ⟨rfl, Or.inr ⟨by omega, rfl⟩⟩

/-- Claim C3 (amended).  Under the discipline of the only in-repository
caller (`process_pending_queue` invokes `process_queue_item` only on items
whose status is pending) and for a configured max_retries of at least 1:
retry_count never exceeds max_retries, a pending item always has retry_count
strictly below max_retries, an item whose retry_count has reached
max_retries has status failed, and a failed item admits no further
disciplined invocation, so it never returns to pending. -/
theorem c3_retry_bound (q : ScrapeQueueItem) (h : ItineraryScraper.QReach q)
    (hmr : 1 ≤ q.max_retries) :
    q.retry_count ≤ q.max_retries ∧
    (q.status = QStatus.pending → q.retry_count < q.max_retries) ∧
    (q.retry_count = q.max_retries → q.status = QStatus.failed) ∧
    (q.status = QStatus.failed → ∀ r, ¬ ItineraryScraper.disciplinedStep q r) := by
  revert hmr
  induction h with
  | init mr =>
    intro hmr
    refine ⟨Nat.zero_le _, fun _ => hmr, fun h0 => ?_, fun hf => ?_⟩
    · exfalso
      simp at h0 hmr
      omega
    · simp at hf
  | step q fetch h hp ih =>
    intro hmr
    rw [process_queue_item_max_retries] at hmr
    have hq := ih hmr
    have hlt : q.retry_count < q.max_retries := hq.2.1 hp
    have hdone : ∀ r, (ItineraryScraper.process_queue_item q fetch).1.status = QStatus.failed →
        ¬ ItineraryScraper.disciplinedStep (ItineraryScraper.process_queue_item q fetch).1 r := by
      intro r hf hstep
      rw [hstep.1] at hf
      simp at hf
    rcases process_queue_item_cases q fetch with ⟨hst, hrc⟩ | ⟨hrc, ⟨hb, hst⟩ | ⟨hb, hst⟩⟩
    · rw [process_queue_item_max_retries, hst, hrc]
      refine ⟨le_of_lt hlt, fun hc => by simp at hc, fun hc => absurd hc (by omega), fun hc => ?_⟩
      simp at hc
    · rw [process_queue_item_max_retries, hst, hrc]
      refine ⟨by omega, fun hc => by simp at hc, fun _ => rfl, fun _ r hstep => ?_⟩
      have := hstep.1
      rw [hst] at this
      simp at this
    · rw [process_queue_item_max_retries, hst, hrc]
      exact ⟨by omega, fun _ => by omega, fun hc => absurd hc (by omega), fun hc => by simp at hc⟩

/-- Witness for C3 (amended): the fresh default item after three disciplined
failing invocations is reachable, sits at retry_count = max_retries = 3, and
is failed. -/
theorem c3_retry_bound_witness :
    (failInvoke (failInvoke (failInvoke freshQueueItem))).retry_count ≤
      (failInvoke (failInvoke (failInvoke freshQueueItem))).max_retries ∧
    (failInvoke (failInvoke (failInvoke freshQueueItem))).status = QStatus.failed := by
  have h0 : ItineraryScraper.QReach freshQueueItem := ItineraryScraper.QReach.init 3
  have h1 : ItineraryScraper.QReach (failInvoke freshQueueItem) :=
    ItineraryScraper.QReach.step _ _ h0 rfl
  have h2 : ItineraryScraper.QReach (failInvoke (failInvoke freshQueueItem)) :=
    ItineraryScraper.QReach.step _ _ h1 rfl
  have h3 : ItineraryScraper.QReach (failInvoke (failInvoke (failInvoke freshQueueItem))) :=
    ItineraryScraper.QReach.step _ _ h2 rfl
  have hmr : 1 ≤ (failInvoke (failInvoke (failInvoke freshQueueItem))).max_retries := by decide
  exact ⟨(c3_retry_bound _ h3 hmr).1, (c3_retry_bound _ h3 hmr).2.2.1 (by decide)⟩

/-- Claim C4 (confirmed).  Calling `process_raw_itinerary` on an
already-processed raw itinerary without forcing returns `None` and leaves the
whole state (the raw row and its dependent processed row) unchanged: the
guard returns before any side effect. -/
theorem c4_reentry_idempotent (st : GPTProcessor.ProcState) (outcome : ExtractionOutcome)
    (h : st.raw.is_processed = true) :
    GPTProcessor.process_raw_itinerary st outcome false = (none, st) := by
  unfold GPTProcessor.process_raw_itinerary
  rw [h]
  rfl

/-- An already-processed raw itinerary row. -/
def processedRaw : RawItinerary :=
  { raw_text := "Day 1: Arrival in Arusha", is_processed := true }

/-- Witness for C4: re-entry on a concrete processed row with a concrete
outcome is a no-op. -/
theorem c4_reentry_idempotent_witness :
    GPTProcessor.process_raw_itinerary ⟨processedRaw, none⟩
      (ExtractionOutcome.otherError "API timeout") false = (none, ⟨processedRaw, none⟩) :=
  c4_reentry_idempotent ⟨processedRaw, none⟩ (ExtractionOutcome.otherError "API timeout") rfl

/-- Claim C5 (confirmed).  On an extraction failure (a JSON-parse error or
any other exception) over an unprocessed raw row, `process_raw_itinerary`
returns `None`, records the (nonempty) error message into
`processing_error`, and leaves `is_processed = false`; and
`process_pending_raw_itineraries` selects only rows with
`is_processed = false` and empty `processing_error`, so a row with a
nonempty `processing_error` is never selected (forced reprocessing is the
only retry path for it). -/
theorem c5_failure_semantics (st : GPTProcessor.ProcState) (msg : String) (force : Bool)
    (h : st.raw.is_processed = false) :
    GPTProcessor.process_raw_itinerary st (ExtractionOutcome.jsonError msg) force =
      (none, { st with raw := { st.raw with processing_error := "JSON parsing error: " ++ msg } }) ∧
    GPTProcessor.process_raw_itinerary st (ExtractionOutcome.otherError msg) force =
      (none, { st with raw := { st.raw with processing_error := msg } }) ∧
    "JSON parsing error: " ++ msg ≠ "" ∧
    (GPTProcessor.process_raw_itinerary st (ExtractionOutcome.jsonError msg) force).2.raw.is_processed
      = false ∧
    (GPTProcessor.process_raw_itinerary st (ExtractionOutcome.otherError msg) force).2.raw.is_processed
      = false ∧
    (∀ db max_items r, r ∈ GPTProcessor.process_pending_selection db max_items →
        r.is_processed = false ∧ r.processing_error = "") ∧
    (∀ db max_items r, r.processing_error ≠ "" →
        r ∉ GPTProcessor.process_pending_selection db max_items) := by
  have hguard : (st.raw.is_processed && !force) = false := by rw [h]; rfl
  have hj : GPTProcessor.process_raw_itinerary st (ExtractionOutcome.jsonError msg) force =
      (none, { st with raw := { st.raw with processing_error := "JSON parsing error: " ++ msg } }) := by
    unfold GPTProcessor.process_raw_itinerary
    rw [hguard]
    rfl
  have ho : GPTProcessor.process_raw_itinerary st (ExtractionOutcome.otherError msg) force =
      (none, { st with raw := { st.raw with processing_error := msg } }) := by
    unfold GPTProcessor.process_raw_itinerary
    rw [hguard]
    rfl
  have hsel : ∀ db max_items r, r ∈ GPTProcessor.process_pending_selection db max_items →
      r.is_processed = false ∧ r.processing_error = "" := by
    intro db max_items r hr
    have hmem : r ∈ db.filter (fun r => !r.is_processed && r.processing_error == "") :=
      List.take_subset _ _ hr
    have hp := List.of_mem_filter hmem
    simp only [Bool.and_eq_true, Bool.not_eq_eq_eq_not, Bool.not_true, beq_iff_eq] at hp
    exact hp
  refine ⟨hj, ho, ?_, by rw [hj]; exact h, by rw [ho]; exact h, hsel, ?_⟩
  · intro hc
    have hd : "JSON parsing error: ".data ++ msg.data = ([] : List Char) :=
      congrArg String.data hc
    rw [List.append_eq_nil] at hd
    exact absurd hd.1 (by decide)
  · intro db max_items r hne hmem
    exact hne (hsel db max_items r hmem).2

/-- A raw itinerary row carrying a recorded processing error. -/
def erroredRaw : RawItinerary :=
  { raw_text := "Day 1: Arrival", processing_error := "API timeout" }

/-- An unprocessed raw itinerary row with no recorded error. -/
def freshRaw : RawItinerary :=
  { raw_text := "Day 1: Arrival ... Day 7: Departure" }

/-- Witness for C5: a concrete failing extraction returns `None` with the
error recorded, and a concrete errored row is not selected for automatic
reprocessing. -/
theorem c5_failure_semantics_witness :
    GPTProcessor.process_raw_itinerary ⟨freshRaw, none⟩
        (ExtractionOutcome.jsonError "Expecting value") false =
      (none, ⟨{ freshRaw with processing_error := "JSON parsing error: Expecting value" }, none⟩) ∧
    erroredRaw ∉ GPTProcessor.process_pending_selection [erroredRaw, freshRaw] 5 :=
  ⟨(c5_failure_semantics ⟨freshRaw, none⟩ "Expecting value" false rfl).1,
   (c5_failure_semantics ⟨freshRaw, none⟩ "Expecting value" false rfl).2.2.2.2.2.2
     [erroredRaw, freshRaw] 5 erroredRaw (by decide)⟩

/-- Claim C6 (confirmed).  The approve and reject actions set the status
and stamp both the reviewer (the acting user) and the reviewed-at time,
together with the posted notes; the needs_revision action sets the status,
the reviewer and the notes but leaves the reviewed-at time unchanged. -/
theorem c6_review_transitions (p : ReviewRecord) (user : String) (now : Nat) (notes : String) :
    review_item_action p "approve" user now notes =
      { p with status := "approved", reviewer := some user, reviewed_at := some now,
               reviewer_notes := notes } ∧
    review_item_action p "reject" user now notes =
      { p with status := "rejected", reviewer := some user, reviewed_at := some now,
               reviewer_notes := notes } ∧
    (review_item_action p "needs_revision" user now notes).status = "needs_revision" ∧
    (review_item_action p "needs_revision" user now notes).reviewer = some user ∧
    (review_item_action p "needs_revision" user now notes).reviewed_at = p.reviewed_at ∧
    (review_item_action p "needs_revision" user now notes).reviewer_notes = notes := by
  unfold review_item_action
  refine ⟨?_, ?_, ?_, ?_, ?_, ?_⟩ <;>
    simp only [reduceIte, String.reduceEq, if_true, if_false]

/-- Claim C7 (confirmed).  `scrape_url` never raises past its boundary (it
is a total function of the fetch outcome): it always returns a result dict,
with `success = true` and empty `error` on success, and on any HTTP or parse
failure `success = false` with a nonempty error string classified by a
`Request failed: ` or `Parsing failed: ` prefix. -/
theorem c7_scrape_url_total (outcome : FetchOutcome) :
    ((ItineraryScraper.scrape_url outcome).success = true ∧
      (ItineraryScraper.scrape_url outcome).error = "") ∨
    ((ItineraryScraper.scrape_url outcome).success = false ∧
      (ItineraryScraper.scrape_url outcome).error ≠ "" ∧
      ∃ msg, (ItineraryScraper.scrape_url outcome).error = "Request failed: " ++ msg ∨
             (ItineraryScraper.scrape_url outcome).error = "Parsing failed: " ++ msg) := by
  cases outcome with
  | ok html page => exact Or.inl ⟨rfl, rfl⟩
  | requestError msg =>
    refine Or.inr ⟨rfl, ?_, msg, Or.inl rfl⟩
    intro hc
    have hd : "Request failed: ".data ++ msg.data = ([] : List Char) := congrArg String.data hc
    rw [List.append_eq_nil] at hd
    exact absurd hd.1 (by decide)
  | parseError html msg =>
    refine Or.inr ⟨rfl, ?_, msg, Or.inr rfl⟩
    intro hc
    have hd : "Parsing failed: ".data ++ msg.data = ([] : List Char) := congrArg String.data hc
    rw [List.append_eq_nil] at hd
    exact absurd hd.1 (by decide)

/-- Helper: the instruction field stored in the sterilized training record
is the first derived user question when there is one, otherwise the legacy
generated_instruction field. -/
theorem sterilize_lookup_instruction (data : Json) :
    (DataSterilizer.sterilize_for_training data).lookup "instruction" =
      some (match data.getD "derived_user_questions" (Json.arr []) with
            | Json.arr (q :: _) => q
            | _ => data.getD "generated_instruction" (Json.str "")) := rfl

/-- Claim C8 (confirmed).  For every payload the sterilized training record
has exactly the three keys instruction, response and metadata, in that
order; its response is the markdown serializer output for the payload; and
its instruction is the first element of derived_user_questions when that
list is nonempty, otherwise the legacy generated_instruction field (also
when the value is absent, hence the empty-list default). -/
theorem c8_training_record_shape (data : Json) :
    (DataSterilizer.sterilize_for_training data).keys = ["instruction", "response", "metadata"] ∧
    (DataSterilizer.sterilize_for_training data).lookup "response" =
      some (Json.str (DataSterilizer.sterilize_itinerary data)) ∧
    ((∃ q rest, data.getD "derived_user_questions" (Json.arr []) = Json.arr (q :: rest) ∧
        (DataSterilizer.sterilize_for_training data).lookup "instruction" = some q) ∨
     ((∀ q rest, data.getD "derived_user_questions" (Json.arr []) ≠ Json.arr (q :: rest)) ∧
        (DataSterilizer.sterilize_for_training data).lookup "instruction" =
          some (data.getD "generated_instruction" (Json.str "")))) := by
  refine ⟨rfl, rfl, ?_⟩
  rw [sterilize_lookup_instruction]
  cases hdq : data.getD "derived_user_questions" (Json.arr []) with
  | arr elems =>
    cases elems with
    | nil =>
      refine Or.inr ⟨fun q rest hc => ?_, rfl⟩
      simp at hc
    | cons q rest => exact Or.inl ⟨q, rest, rfl, rfl⟩
  | null => exact Or.inr ⟨fun q rest hc => Json.noConfusion hc, rfl⟩
  | bool b => exact Or.inr ⟨fun q rest hc => Json.noConfusion hc, rfl⟩
  | num n => exact Or.inr ⟨fun q rest hc => Json.noConfusion hc, rfl⟩
  | fnum q0 => exact Or.inr ⟨fun q rest hc => Json.noConfusion hc, rfl⟩
  | str s => exact Or.inr ⟨fun q rest hc => Json.noConfusion hc, rfl⟩
  | obj fs => exact Or.inr ⟨fun q rest hc => Json.noConfusion hc, rfl⟩

/-- The day list of the duration-accounting scenario: arrival, two activity
days, a summit day and a departure day. -/
def scenarioDays : List Json :=
  [Json.obj [("day_type", Json.str "arrival")],
   Json.obj [("day_type", Json.str "activity")],
   Json.obj [("day_type", Json.str "activity")],
   Json.obj [("day_type", Json.str "summit")],
   Json.obj [("day_type", Json.str "departure")]]

/-- Claim C9 counterexample.  The claim says total_days counts all day
entries, but the narrative serializer counts only the entries that are
dicts: a day list consisting of one string entry has length 1 while the
serializer counts 0 total days. -/
theorem c9_counterexample :
    DataSterilizer.countTotalDays [Json.str "transfer note"] ≠
      [Json.str "transfer note"].length := by decide

/-- Claim C9 (amended).  For the scenario day list the narrative serializer
counts activity_days = 3 (activity, activity, summit) and total_days = 5,
and its output carries the corresponding duration line; in general
activity_days counts exactly the dict days whose day_type (defaulting to
activity when absent) is activity, summit or hiking, and total_days counts
exactly the day entries that are dicts. -/
theorem c9_duration_accounting :
    DataSterilizer.countActivityDays scenarioDays = 3 ∧
    DataSterilizer.countTotalDays scenarioDays = 5 ∧
    strContains
      (DataSterilizer.serialize_itinerary (Json.obj [("days", Json.arr scenarioDays)]))
      "Duration: 3 days of activities | 5 days total program" = true ∧
    ∀ days : List Json,
      DataSterilizer.countActivityDays days =
        (days.filter DataSterilizer.isActivityDay).length ∧
      DataSterilizer.countTotalDays days = (days.filter Json.isObj).length := by
  refine ⟨rfl, rfl, by decide, ?_⟩
  intro days
  refine ⟨?_, rfl⟩
  induction days with
  | nil => rfl
  | cons d rest ih =>
    simp only [DataSterilizer.countActivityDays, List.filter_cons, ih]
    by_cases h : DataSterilizer.isActivityDay d
    · simp [h, Nat.add_comm]
    · simp [h]

/-- Claim C10 (confirmed).  The narrative serializer is total on malformed
input (it is a total Lean function, so it never raises): a string argument
that is not valid JSON yields exactly "Invalid JSON data"; a string that
parses to a non-dict value, and any non-string non-dict argument, yield
exactly "Invalid itinerary format". -/
theorem c10_malformed_input (s : String) (j v : Json) :
    (jsonParse s = none →
      DataSterilizer.serialize_itinerary (Json.str s) = "Invalid JSON data") ∧
    (jsonParse s = some j → j.isObj = false →
      DataSterilizer.serialize_itinerary (Json.str s) = "Invalid itinerary format") ∧
    ((∀ t, v ≠ Json.str t) → v.isObj = false →
      DataSterilizer.serialize_itinerary v = "Invalid itinerary format") := by
  refine ⟨?_, ?_, ?_⟩
  · intro h
    simp only [DataSterilizer.serialize_itinerary]
    rw [h]
  · intro h hobj
    simp only [DataSterilizer.serialize_itinerary]
    rw [h]
    cases j with
    | obj fs => simp [Json.isObj] at hobj
    | null => rfl
    | bool b => rfl
    | num n => rfl
    | fnum q => rfl
    | str u => rfl
    | arr xs => rfl
  · intro hs hobj
    cases v with
    | str t => exact absurd rfl (hs t)
    | obj fs => simp [Json.isObj] at hobj
    | null => rfl
    | bool b => rfl
    | num n => rfl
    | fnum q => rfl
    | arr xs => rfl

/-- Witness for C10: a malformed string and a leading-zero literal (both
invalid JSON, as for `json.loads`); a string parsing to a JSON list and the
accepted constant `NaN` (both valid JSON but not dicts); and a plain int
argument. -/
theorem c10_malformed_input_witness :
    DataSterilizer.serialize_itinerary (Json.str "not a json value") = "Invalid JSON data" ∧
    DataSterilizer.serialize_itinerary (Json.str "01") = "Invalid JSON data" ∧
    DataSterilizer.serialize_itinerary (Json.str "[1, 2]") = "Invalid itinerary format" ∧
    DataSterilizer.serialize_itinerary (Json.str "NaN") = "Invalid itinerary format" ∧
    DataSterilizer.serialize_itinerary (Json.num 5) = "Invalid itinerary format" :=
  ⟨(c10_malformed_input "not a json value" Json.null Json.null).1 rfl,
   (c10_malformed_input "01" Json.null Json.null).1 rfl,
   (c10_malformed_input "[1, 2]" (Json.arr [Json.num 1, Json.num 2]) Json.null).2.1 rfl rfl,
   (c10_malformed_input "NaN" (Json.fnum PyFloat.nan) Json.null).2.1 rfl rfl,
   (c10_malformed_input "x" Json.null (Json.num 5)).2.2 (fun _ hc => Json.noConfusion hc) rfl⟩

end Barizi
